import Mathlib

/-!
Verification of the i2c-rtc-sniffer trace analyzer (`main.py`).

The program reads ASCII lines captured from an I2C bus sniffer
(e.g. `sD0a00asD1a55a06a30a16a03a01a06a21a80np`), decodes each line into a
record (date/time word `00`, alarm/halt word `0C`, or an error status),
validates decoded date/times against the calendar, and tracks whether
accepted timestamps increase monotonically.

The embedding below translates the Python functions `get_val`,
`is_nack_stop`, `get_alarm_register`, `dt_to_int`, `parse_record`,
`check_datetime` and `update_error_counter`, together with the global
mutable state (`records`, `datetime_errors`, `halttime_errors`, `dt_last`,
`datetime_invalid`, `datetime_out_sequence`) as an explicit `RunState`.
Python exceptions that escape a function (the `KeyError` raised by
`data["word"]` on a record that never set that key) are modelled with
`Except`; exceptions the source catches locally (`IndexError`,
`ValueError`) are modelled by the corresponding total branch.
-/

/-- The ASCII whitespace set of Python's `str.strip()`. -/
def is_space (c : Char) : Bool :=
  c == ' ' || c == '\t' || c == '\n' || c == '\r' || c == '\x0b' || c == '\x0c'

/-- Python `line.strip()` on the character list: drop leading and trailing
whitespace. -/
def strip_chars (l : List Char) : List Char :=
  ((l.dropWhile is_space).reverse.dropWhile is_space).reverse

/-- Python `line.strip()`. -/
def py_strip (s : String) : String := String.mk (strip_chars s.data)

/-- Python `str.split(sep)` for a one-character separator: empty fields are
preserved, and the empty string splits to one empty field. -/
def split_char (sep : Char) : List Char → List (List Char)
  | [] => [[]]
  | c :: cs =>
    let r := split_char sep cs
    if c == sep then [] :: r
    else
      match r with
      | t :: ts => (c :: t) :: ts
      | [] => [[c]]

/-- The Tokenizer: Python `line.split("a")` producing the frame's tokens. -/
def tokenize (line : String) : List String :=
  (split_char 'a' line.data).map String.mk

/-- Python `get_val(registers, index)`: `registers[index]` under
`try/except`, returning the sentinel `"."` on `IndexError`.  Every call in
the program passes a nonnegative literal index (0..11), so the index is a
`Nat`. -/
def get_val (registers : List String) (index : Nat) : String :=
  registers.getD index "."

/-- The test Python's `is_nack_stop` applies to the characters of a token:
`val[-2] == 'n' and val[-1] == 'p'` under `try/except`.  `val[-1]` is the
last character and `val[-2]` the one before it; fewer than two characters
raise `IndexError`, caught as `False`. -/
def last_two_np (val : List Char) : Bool :=
  match val.dropLast.getLast?, val.getLast? with
  | some c2, some c1 => c2 == 'n' && c1 == 'p'
  | _, _ => false

/-- Python `is_nack_stop(register, index)`. -/
def is_nack_stop (register : List String) (index : Nat) : Bool :=
  last_two_np (get_val register index).data

/-- The value of one hexadecimal digit. -/
def hex_digit (c : Char) : Option Nat :=
  if '0' ≤ c ∧ c ≤ '9' then some (c.toNat - '0'.toNat)
  else if 'a' ≤ c ∧ c ≤ 'f' then some (c.toNat - 'a'.toNat + 10)
  else if 'A' ≤ c ∧ c ≤ 'F' then some (c.toNat - 'A'.toNat + 10)
  else none

/-- Python `int(s, 16)` on the plain hexadecimal-digit strings the sniffer
produces (`none` models the `ValueError` branch; Python's further accepted
forms - sign, surrounding whitespace, a `0x` prefix, underscores - do not
occur in frame tokens). -/
def parse_hex (s : String) : Option Nat :=
  if s.data.isEmpty then none
  else
    s.data.foldl
      (fun acc c =>
        match acc, hex_digit c with
        | some a, some d => some (16 * a + d)
        | _, _ => none)
      (some 0)

/-- Python `get_alarm_register(field)`: keep the part of the token before
the first `n` (`field.split("n")[0]`), parse it as hexadecimal, and return
`0xFF` when parsing fails. -/
def get_alarm_register (field : String) : Nat :=
  match parse_hex (String.mk ((split_char 'n' field.data).headD [])) with
  | some v => v
  | none => 0xFF

/-- Python `dt_to_int(val)`: `int(val)` under `try/except`, `-1` on failure.
Modelled on the plain decimal-digit strings the sniffer produces (Python's
further accepted forms - sign, surrounding whitespace, underscores - do not
occur in frame tokens, which fail to `-1` exactly when they contain a
non-digit, e.g. `"."` or `"80np"`). -/
def dt_to_int (val : String) : Int :=
  if val.data.length != 0 && val.data.all Char.isDigit then
    (val.data.foldl (fun a c => 10 * a + (c.toNat - '0'.toNat)) 0 : Nat)
  else -1

/-- The decoded result of one frame, Python's `json_data` dictionary: a key
that was never assigned is `none`, and reading it raises `KeyError`.
`status` is always assigned before `parse_record` returns (a nonempty line
always splits into at least one token). -/
structure Record where
  slave : Option String := none
  word : Option String := none
  year : Option String := none
  month : Option String := none
  day : Option String := none
  hour : Option String := none
  minute : Option String := none
  seconds : Option String := none
  tenths : Option String := none
  status : String := ""
deriving DecidableEq, Repr

/-- Python `parse_record(line)`: strip the line, classify the empty line,
split on `"a"` and decode the frame by the token values at fixed positions.
In the alarm branch the Python test `not get_alarm_register(...) and 0x40`
is truthy exactly when the register value equals `0` (the expression is
then the nonzero constant `0x40`); the mask never takes part in a bitwise
test, so the condition is modelled as equality with `0`. -/
def parse_record (line : String) : Record :=
  let stripped := py_strip line
  if stripped.data.isEmpty then { status := "empty" }
  else
    let ack := tokenize stripped
    if get_val ack 0 == "sD0" then
      if get_val ack 1 == "00" then
        if get_val ack 2 == "sD1" then
          { slave := some "D0", word := some "00",
            year := some (get_val ack 10), month := some (get_val ack 9),
            day := some (get_val ack 8), hour := some (get_val ack 6),
            minute := some (get_val ack 5), seconds := some (get_val ack 4),
            tenths := some (get_val ack 3),
            status := if is_nack_stop ack 11 then "ok" else "nack-stop" }
        else
          { slave := some "D0", word := some "00", status := "not-read" }
      else if get_val ack 1 == "0C" then
        if get_val ack 2 == "sD1" then
          { slave := some "D0", word := some "0C",
            status :=
              if get_alarm_register (get_val ack 3) == 0 then "halt"
              else if is_nack_stop ack 3 then "ok"
              else "nack-stop" }
        else
          { slave := some "D0", word := some "0C", status := "not-read" }
      else
        { slave := some "D0", status := "word unknow" }
    else
      { status := "device unknow" }

/-- One civil timestamp as Python's `datetime` values compare: field by
field, most significant first. -/
structure PyDatetime where
  year : Nat
  month : Nat
  day : Nat
  hour : Nat
  minute : Nat
  second : Nat
deriving DecidableEq, Repr

/-- Python `datetime.min`: 0001-01-01 00:00:00. -/
def datetime_min : PyDatetime := ⟨1, 1, 1, 0, 0, 0⟩

/-- Python `datetime` comparison `<`: lexicographic on
(year, month, day, hour, minute, second). -/
def dt_lt (a b : PyDatetime) : Bool :=
  if a.year ≠ b.year then decide (a.year < b.year)
  else if a.month ≠ b.month then decide (a.month < b.month)
  else if a.day ≠ b.day then decide (a.day < b.day)
  else if a.hour ≠ b.hour then decide (a.hour < b.hour)
  else if a.minute ≠ b.minute then decide (a.minute < b.minute)
  else decide (a.second < b.second)

/-- Gregorian leap year, as Python's `datetime` uses it. -/
def is_leap (y : Nat) : Bool :=
  y % 4 == 0 && (y % 100 != 0 || y % 400 == 0)

/-- Days in a month of the proleptic Gregorian calendar. -/
def days_in_month (y m : Nat) : Nat :=
  if m == 2 then (if is_leap y then 29 else 28)
  else if m == 4 || m == 6 || m == 9 || m == 11 then 30
  else 31

/-- The validation Python's `datetime(...)` constructor performs; a
violation raises `ValueError`.  Arguments are `Int` because `dt_to_int`
produces `-1` for unparsable fields. -/
def datetime_ok (year month day hour minute second : Int) : Bool :=
  decide (1 ≤ year ∧ year ≤ 9999 ∧ 1 ≤ month ∧ month ≤ 12 ∧
    1 ≤ day ∧ day ≤ (days_in_month year.toNat month.toNat : Int) ∧
    0 ≤ hour ∧ hour ≤ 23 ∧ 0 ≤ minute ∧ minute ≤ 59 ∧
    0 ≤ second ∧ second ≤ 59)

/-- The `PyDatetime` Python's `datetime(...)` constructor builds once
validation passed (all components are then nonnegative). -/
def mk_dt (year month day hour minute second : Int) : PyDatetime :=
  ⟨year.toNat, month.toNat, day.toNat, hour.toNat, minute.toNat, second.toNat⟩

/-- The program's global mutable state: `records`, the four log lists and
`dt_last`, threaded explicitly. -/
structure RunState where
  records : Nat := 0
  datetime_errors : List String := []
  halttime_errors : List String := []
  dt_last : PyDatetime := datetime_min
  datetime_invalid : List String := []
  datetime_out_sequence : List String := []
deriving DecidableEq, Repr

/-- The state at program start. -/
def initState : RunState := {}

/-- The `str_log` line `check_datetime` formats from the running record
index and the six components. -/
def datetime_log (records : Nat) (year month day hour minute seconds : Int) : String :=
  s!"mark:{records} year:{year} month:{month} day:{day} hour:{hour} minute:{minute} seconds: {seconds}"

/-- Python `check_datetime(year, month, day, hour, minute, seconds)`:
construct `datetime(2000 + year, month, day, hour, minute, seconds)`; on
`ValueError` log to `datetime_invalid`; otherwise log to
`datetime_out_sequence` when the new timestamp is strictly below `dt_last`,
and set `dt_last` to it unconditionally. -/
def check_datetime (st : RunState) (year month day hour minute seconds : Int) : RunState :=
  let str_log := datetime_log st.records year month day hour minute seconds
  if datetime_ok (2000 + year) month day hour minute seconds then
    let dt := mk_dt (2000 + year) month day hour minute seconds
    let st1 :=
      if dt_lt dt st.dt_last then
        { st with datetime_out_sequence := st.datetime_out_sequence ++ [str_log] }
      else st
    { st1 with dt_last := dt }
  else
    { st with datetime_invalid := st.datetime_invalid ++ [str_log] }

/-- The `str_log` line `update_error_counter` formats from the running
record index, the stripped raw line and the status. -/
def error_log (records : Nat) (line : String) (status : String) : String :=
  let stripped := py_strip line
  s!"{records} {stripped} {status}"

/-- Python `update_error_counter(data, line)`.  A status that is none of
`empty`, `ok`, `device unknow` sends the log line to the bucket selected by
`data["word"]` - an access that raises `KeyError` when the key was never
set (the `word unknow` records), modelled as `Except.error`; the record
counter at the end is then never reached.  A status `ok` with word `00`
runs `check_datetime` on the six converted fields. -/
def update_error_counter (st : RunState) (data : Record) (line : String) :
    Except String RunState :=
  let step1 : Except String RunState :=
    if data.status != "empty" && data.status != "ok" && data.status != "device unknow" then
      let str_log := error_log st.records line data.status
      match data.word with
      | none => Except.error "KeyError"
      | some w =>
        if w == "00" then
          Except.ok { st with datetime_errors := st.datetime_errors ++ [str_log] }
        else if w == "0C" then
          Except.ok { st with halttime_errors := st.halttime_errors ++ [str_log] }
        else Except.ok st
    else Except.ok st
  match step1 with
  | Except.error e => Except.error e
  | Except.ok st1 =>
    let step2 : Except String RunState :=
      if data.status == "ok" then
        match data.word with
        | none => Except.error "KeyError"
        | some w =>
          if w == "00" then
            match data.year, data.month, data.day, data.hour, data.minute, data.seconds with
            | some y, some mo, some d, some h, some mi, some s =>
              Except.ok (check_datetime st1 (dt_to_int y) (dt_to_int mo) (dt_to_int d)
                (dt_to_int h) (dt_to_int mi) (dt_to_int s))
            | _, _, _, _, _, _ => Except.error "KeyError"
          else Except.ok st1
      else Except.ok st1
    match step2 with
    | Except.error e => Except.error e
    | Except.ok st2 => Except.ok { st2 with records := st2.records + 1 }

/-- One iteration of the `parse_raw_file` loop as far as it touches
`RunState`: decode the line and run the accumulator.  (`show_record` and
`save_json`, which run in between, do not touch `RunState`; on a
`word unknow` record `show_record` raises the same `KeyError` first.) -/
def process_line (st : RunState) (line : String) : Except String RunState :=
  update_error_counter st (parse_record line) line

/-- The `parse_raw_file` loop over a list of lines; an escaped exception
aborts the run. -/
def process_lines (st : RunState) : List String → Except String RunState
  | [] => Except.ok st
  | l :: ls =>
    match process_line st l with
    | Except.ok st1 => process_lines st1 ls
    | Except.error e => Except.error e

/-- Six date/time components (year, month, day, hour, minute, seconds) as
passed to `check_datetime`. -/
abbrev DT6 := Int × Int × Int × Int × Int × Int

/-- The components pass Python's `datetime(2000 + year, ...)` validation. -/
def comp_valid (t : DT6) : Bool :=
  datetime_ok (2000 + t.1) t.2.1 t.2.2.1 t.2.2.2.1 t.2.2.2.2.1 t.2.2.2.2.2

/-- The timestamp the components build. -/
def comp_dt (t : DT6) : PyDatetime :=
  mk_dt (2000 + t.1) t.2.1 t.2.2.1 t.2.2.2.1 t.2.2.2.2.1 t.2.2.2.2.2

/-- Feeding a list of component tuples through `check_datetime` in order. -/
def run_checks (st : RunState) (ts : List DT6) : RunState :=
  ts.foldl (fun s t => check_datetime s t.1 t.2.1 t.2.2.1 t.2.2.2.1 t.2.2.2.2.1 t.2.2.2.2.2) st

/-- Claim C1: the spec's intended contract is "status = halt exactly when
bit 6 (mask 0x40) of the decoded alarm control register is set", and the
code's own comment says the same; but the implemented test
`not get_alarm_register(...) and 0x40` is truthy exactly when the register
equals 0.  At register byte `40` (bit 6 set) the code yields `ok`, and at
register byte `00` (bit 6 clear) it yields `halt`. -/
theorem C1_halt_bit_code_divergence :
    get_alarm_register "40np" &&& 0x40 = 0x40 ∧
    (parse_record "sD0a0CasD1a40np").status = "ok" ∧
    get_alarm_register "00np" &&& 0x40 = 0 ∧
    (parse_record "sD0a0CasD1a00np").status = "halt" :=
  ⟨rfl, rfl, rfl, rfl⟩

/-- Claim C2: a line whose first token is `sD0` and whose second token is
neither `00` nor `0C` decodes to a `word unknow` record with no `word` key;
feeding that record to `update_error_counter` raises `KeyError` at
`data["word"]`, so nothing is appended to either bucket but the record
counter is never incremented and the run aborts rather than continuing. -/
theorem C2_word_unknown_keyerror :
    (parse_record "sD0a01").status = "word unknow" ∧
    (parse_record "sD0a01").slave = some "D0" ∧
    (parse_record "sD0a01").word = none ∧
    update_error_counter initState (parse_record "sD0a01") "sD0a01" =
      Except.error "KeyError" :=
  ⟨rfl, rfl, rfl, rfl⟩

/-- Claim C7: the canonical input line decodes to the record of the spec's
scenario, each date/time field taken from its fixed token position
(tenths 3, seconds 4, minute 5, hour 6, day 8, month 9, year 10; token 7
unused). -/
theorem C7_canonical_datetime_frame :
    parse_record "sD0a00asD1a55a06a30a16a03a01a06a21a80np" =
      { slave := some "D0", word := some "00", status := "ok",
        year := some "21", month := some "06", day := some "01",
        hour := some "16", minute := some "30", seconds := some "06",
        tenths := some "55" } ∧
    (parse_record "sD0a00asD1a55a06a30a16a03a01a06a21a80np").tenths =
      some (get_val (tokenize "sD0a00asD1a55a06a30a16a03a01a06a21a80np") 3) ∧
    (parse_record "sD0a00asD1a55a06a30a16a03a01a06a21a80np").seconds =
      some (get_val (tokenize "sD0a00asD1a55a06a30a16a03a01a06a21a80np") 4) ∧
    (parse_record "sD0a00asD1a55a06a30a16a03a01a06a21a80np").minute =
      some (get_val (tokenize "sD0a00asD1a55a06a30a16a03a01a06a21a80np") 5) ∧
    (parse_record "sD0a00asD1a55a06a30a16a03a01a06a21a80np").hour =
      some (get_val (tokenize "sD0a00asD1a55a06a30a16a03a01a06a21a80np") 6) ∧
    (parse_record "sD0a00asD1a55a06a30a16a03a01a06a21a80np").day =
      some (get_val (tokenize "sD0a00asD1a55a06a30a16a03a01a06a21a80np") 8) ∧
    (parse_record "sD0a00asD1a55a06a30a16a03a01a06a21a80np").month =
      some (get_val (tokenize "sD0a00asD1a55a06a30a16a03a01a06a21a80np") 9) ∧
    (parse_record "sD0a00asD1a55a06a30a16a03a01a06a21a80np").year =
      some (get_val (tokenize "sD0a00asD1a55a06a30a16a03a01a06a21a80np") 10) :=
  ⟨rfl, rfl, rfl, rfl, rfl, rfl, rfl, rfl⟩

/-- Python `<` on datetimes never holds between a value and itself. -/
theorem dt_lt_irrefl (a : PyDatetime) : dt_lt a a = false := by
  simp [dt_lt]

/-- Claim C3 (amended): a component that failed integer conversion carries
the sentinel `-1`; for month, day, hour, minute or seconds this makes the
`datetime` constructor raise, so the candidate is rejected, one entry with
the record index and the components is appended to `datetime_invalid`, and
`dt_last` is unchanged.  (A year of `-1` instead yields the valid calendar
year `1999` and is not rejected - see the counterexample.) -/
theorem C3_amended_sentinel_rejected (st : RunState) (year month day hour minute seconds : Int)
    (h : month = -1 ∨ day = -1 ∨ hour = -1 ∨ minute = -1 ∨ seconds = -1) :
    (check_datetime st year month day hour minute seconds).datetime_invalid =
      st.datetime_invalid ++ [datetime_log st.records year month day hour minute seconds] ∧
    (check_datetime st year month day hour minute seconds).dt_last = st.dt_last ∧
    (check_datetime st year month day hour minute seconds).datetime_out_sequence =
      st.datetime_out_sequence := by
  have hok : datetime_ok (2000 + year) month day hour minute seconds = false := by
    simp only [datetime_ok, decide_eq_false_iff_not]
    rintro ⟨h1, h2, h3, h4, h5, h6, h7, h8, h9, h10, h11, h12⟩
    rcases h with h | h | h | h | h <;> omega
  simp [check_datetime, hok]

/-- Witness for the amended claim C3 at month `-1`. -/
theorem C3_sentinel_witness :
    ((-1 : Int) = -1 ∨ (1 : Int) = -1 ∨ (16 : Int) = -1 ∨ (30 : Int) = -1 ∨ (6 : Int) = -1) ∧
    ((check_datetime initState 21 (-1) 1 16 30 6).datetime_invalid =
        initState.datetime_invalid ++ [datetime_log initState.records 21 (-1) 1 16 30 6] ∧
      (check_datetime initState 21 (-1) 1 16 30 6).dt_last = initState.dt_last ∧
      (check_datetime initState 21 (-1) 1 16 30 6).datetime_out_sequence =
        initState.datetime_out_sequence) :=
  ⟨Or.inl rfl, C3_amended_sentinel_rejected initState 21 (-1) 1 16 30 6 (Or.inl rfl)⟩

/-- Counterexample to claim C3 as stated: in the frame
`sD0a00asD1a55a06a30a16a03a01a06aXXa80np` the year token `XX` fails
conversion and becomes `-1`, yet `datetime(2000 + (-1), ...)` is the valid
timestamp 1999-06-01 16:30:06, so nothing is appended to `datetime_invalid`
and `dt_last` does change. -/
theorem C3_counterexample_year_sentinel :
    dt_to_int "XX" = -1 ∧
    (parse_record "sD0a00asD1a55a06a30a16a03a01a06aXXa80np").status = "ok" ∧
    (parse_record "sD0a00asD1a55a06a30a16a03a01a06aXXa80np").word = some "00" ∧
    (parse_record "sD0a00asD1a55a06a30a16a03a01a06aXXa80np").year = some "XX" ∧
    process_line initState "sD0a00asD1a55a06a30a16a03a01a06aXXa80np" =
      Except.ok { records := 1, datetime_errors := [], halttime_errors := [],
                  dt_last := ⟨1999, 6, 1, 16, 30, 6⟩, datetime_invalid := [],
                  datetime_out_sequence := [] } :=
  ⟨rfl, rfl, rfl, rfl, rfl⟩

/-- Claim C4 (amended): an accepted, calendar-valid timestamp exactly equal
to `dt_last` is NOT flagged: the tracker's test is the strict `dt < dt_last`,
so an equal timestamp appends nothing to `datetime_out_sequence` (and
leaves `dt_last` at the same value). -/
theorem C4_amended_equal_not_flagged (st : RunState) (year month day hour minute seconds : Int)
    (hvalid : datetime_ok (2000 + year) month day hour minute seconds = true)
    (heq : mk_dt (2000 + year) month day hour minute seconds = st.dt_last) :
    (check_datetime st year month day hour minute seconds).datetime_out_sequence =
      st.datetime_out_sequence ∧
    (check_datetime st year month day hour minute seconds).dt_last = st.dt_last ∧
    (check_datetime st year month day hour minute seconds).datetime_invalid =
      st.datetime_invalid := by
  have hlt : dt_lt (mk_dt (2000 + year) month day hour minute seconds) st.dt_last = false := by
    rw [heq]; exact dt_lt_irrefl _
  simp [check_datetime, hvalid, hlt, heq, dt_lt_irrefl]

/-- Counterexample to claim C4 as stated: feeding the valid timestamp
2021-06-01 16:30:06 twice leaves `datetime_out_sequence` empty - the
repeated, equal timestamp is not flagged. -/
theorem C4_counterexample_equal_timestamp :
    (check_datetime initState 21 6 1 16 30 6).dt_last = ⟨2021, 6, 1, 16, 30, 6⟩ ∧
    (check_datetime (check_datetime initState 21 6 1 16 30 6) 21 6 1 16 30 6).dt_last =
      ⟨2021, 6, 1, 16, 30, 6⟩ ∧
    (check_datetime (check_datetime initState 21 6 1 16 30 6) 21 6 1 16 30 6).datetime_out_sequence
      = [] :=
  ⟨rfl, rfl, rfl⟩

/-- Witness for the amended claim C4: the equal repeat of
2021-06-01 16:30:06 appends nothing. -/
theorem C4_equal_witness :
    (datetime_ok (2000 + 21) 6 1 16 30 6 = true ∧
      mk_dt (2000 + 21) 6 1 16 30 6 = (check_datetime initState 21 6 1 16 30 6).dt_last) ∧
    ((check_datetime (check_datetime initState 21 6 1 16 30 6) 21 6 1 16 30 6).datetime_out_sequence
        = (check_datetime initState 21 6 1 16 30 6).datetime_out_sequence ∧
      (check_datetime (check_datetime initState 21 6 1 16 30 6) 21 6 1 16 30 6).dt_last =
        (check_datetime initState 21 6 1 16 30 6).dt_last ∧
      (check_datetime (check_datetime initState 21 6 1 16 30 6) 21 6 1 16 30 6).datetime_invalid =
        (check_datetime initState 21 6 1 16 30 6).datetime_invalid) :=
  ⟨⟨by decide, by decide⟩,
    C4_amended_equal_not_flagged (check_datetime initState 21 6 1 16 30 6) 21 6 1 16 30 6
      (by decide) (by decide)⟩

/-- Claim C5: an accepted, calendar-valid timestamp strictly earlier than
`dt_last` appends exactly one entry to `datetime_out_sequence`, and
`dt_last` is then moved to the new, earlier value (the baseline is not
repaired); `datetime_invalid` is untouched. -/
theorem C5_strictly_earlier_flagged (st : RunState) (year month day hour minute seconds : Int)
    (hvalid : datetime_ok (2000 + year) month day hour minute seconds = true)
    (hlt : dt_lt (mk_dt (2000 + year) month day hour minute seconds) st.dt_last = true) :
    (check_datetime st year month day hour minute seconds).datetime_out_sequence =
      st.datetime_out_sequence ++ [datetime_log st.records year month day hour minute seconds] ∧
    (check_datetime st year month day hour minute seconds).dt_last =
      mk_dt (2000 + year) month day hour minute seconds ∧
    (check_datetime st year month day hour minute seconds).datetime_invalid =
      st.datetime_invalid := by
  simp [check_datetime, hvalid, hlt]

/-- Witness for claim C5: the spec's scenario, 2021-06-01 16:30:06 followed
by 2021-06-01 16:29:06. -/
theorem C5_earlier_witness :
    (datetime_ok (2000 + 21) 6 1 16 29 6 = true ∧
      dt_lt (mk_dt (2000 + 21) 6 1 16 29 6)
        (check_datetime initState 21 6 1 16 30 6).dt_last = true) ∧
    ((check_datetime (check_datetime initState 21 6 1 16 30 6) 21 6 1 16 29 6).datetime_out_sequence
        = (check_datetime initState 21 6 1 16 30 6).datetime_out_sequence ++
          [datetime_log (check_datetime initState 21 6 1 16 30 6).records 21 6 1 16 29 6] ∧
      (check_datetime (check_datetime initState 21 6 1 16 30 6) 21 6 1 16 29 6).dt_last =
        mk_dt (2000 + 21) 6 1 16 29 6 ∧
      (check_datetime (check_datetime initState 21 6 1 16 30 6) 21 6 1 16 29 6).datetime_invalid =
        (check_datetime initState 21 6 1 16 30 6).datetime_invalid) :=
  ⟨⟨by decide, by decide⟩,
    C5_strictly_earlier_flagged (check_datetime initState 21 6 1 16 30 6) 21 6 1 16 29 6
      (by decide) (by decide)⟩

/-- Anatomy of a successful `update_error_counter` call: the record counter
grows by one, and the state otherwise either is untouched, or one log line
went to exactly one of the two error buckets, or (status `ok`, word `00`)
the state went through `check_datetime`. -/
theorem update_error_counter_ok (st : RunState) (data : Record) (line : String) (st' : RunState)
    (h : update_error_counter st data line = Except.ok st') :
    st' = { st with records := st.records + 1 } ∨
    st' = { st with
            records := st.records + 1,
            datetime_errors := st.datetime_errors ++ [error_log st.records line data.status] } ∨
    st' = { st with
            records := st.records + 1,
            halttime_errors := st.halttime_errors ++ [error_log st.records line data.status] } ∨
    ∃ y mo d hh mi s,
      st' = { check_datetime st y mo d hh mi s with
              records := (check_datetime st y mo d hh mi s).records + 1 } := by
  simp only [update_error_counter] at h
  split at h
  · exact absurd h (by simp)
  next st1 heq1 =>
    split at h
    · exact absurd h (by simp)
    next st2 heq2 =>
      rw [Except.ok.injEq] at h
      subst h
      split at heq1
      · rename_i hc1
        have hcok : (data.status == "ok") = false := by
          simp only [Bool.and_eq_true, bne_iff_ne] at hc1
          simp [hc1.1.2]
        rw [if_neg (by simp [hcok])] at heq2
        rw [Except.ok.injEq] at heq2
        subst heq2
        rcases hw : data.word with _ | w
        · simp only [hw] at heq1; exact absurd heq1 (by simp)
        · simp only [hw] at heq1
          by_cases h00 : (w == "00") = true
          · rw [if_pos h00] at heq1
            rw [Except.ok.injEq] at heq1
            subst heq1
            right; left; rfl
          · rw [if_neg h00] at heq1
            by_cases h0c : (w == "0C") = true
            · rw [if_pos h0c] at heq1
              rw [Except.ok.injEq] at heq1
              subst heq1
              right; right; left; rfl
            · rw [if_neg h0c] at heq1
              rw [Except.ok.injEq] at heq1
              subst heq1
              left; rfl
      · rw [Except.ok.injEq] at heq1
        subst heq1
        by_cases hcok : (data.status == "ok") = true
        · rw [if_pos hcok] at heq2
          rcases hw : data.word with _ | w
          · simp only [hw] at heq2; exact absurd heq2 (by simp)
          · simp only [hw] at heq2
            by_cases h00 : (w == "00") = true
            · rw [if_pos h00] at heq2
              split at heq2 <;>
                first
                | (rw [Except.ok.injEq] at heq2; subst heq2;
                   exact Or.inr (Or.inr (Or.inr ⟨_, _, _, _, _, _, rfl⟩)))
                | exact absurd heq2 (by simp)
            · rw [if_neg h00] at heq2
              rw [Except.ok.injEq] at heq2
              subst heq2
              left; rfl
        · rw [if_neg hcok] at heq2
          rw [Except.ok.injEq] at heq2
          subst heq2
          left; rfl

/-- The calendar validator never touches the date/time frame-error bucket. -/
theorem check_datetime_errors_eq (st : RunState) (year month day hour minute seconds : Int) :
    (check_datetime st year month day hour minute seconds).datetime_errors =
      st.datetime_errors := by
  simp only [check_datetime]
  split
  · split <;> rfl
  · rfl

/-- The calendar validator never touches the halt frame-error bucket. -/
theorem check_datetime_halttime_eq (st : RunState) (year month day hour minute seconds : Int) :
    (check_datetime st year month day hour minute seconds).halttime_errors =
      st.halttime_errors := by
  simp only [check_datetime]
  split
  · split <;> rfl
  · rfl

/-- The calendar validator never touches the record counter. -/
theorem check_datetime_records_eq (st : RunState) (year month day hour minute seconds : Int) :
    (check_datetime st year month day hour minute seconds).records = st.records := by
  simp only [check_datetime]
  split
  · split <;> rfl
  · rfl

/-- One `check_datetime` call leaves `datetime_invalid` or
`datetime_out_sequence` (or both) unchanged: it never appends to both. -/
theorem check_datetime_one_of_two (st : RunState) (year month day hour minute seconds : Int) :
    (check_datetime st year month day hour minute seconds).datetime_invalid =
      st.datetime_invalid ∨
    (check_datetime st year month day hour minute seconds).datetime_out_sequence =
      st.datetime_out_sequence := by
  simp only [check_datetime]
  split
  · left; split <;> rfl
  · right; rfl

/-- One `check_datetime` call appends at most one entry across its two
logs. -/
theorem check_datetime_log_growth (st : RunState) (year month day hour minute seconds : Int) :
    (check_datetime st year month day hour minute seconds).datetime_invalid.length +
      (check_datetime st year month day hour minute seconds).datetime_out_sequence.length ≤
    st.datetime_invalid.length + st.datetime_out_sequence.length + 1 := by
  simp only [check_datetime]
  split
  · split
    · simp
      omega
    · simp
  · simp
    omega

/-- Claim C9: after processing any sequence of input lines from the start
state, `datetime_errors.len + halttime_errors.len ≤ records`, and this
invariant is preserved by every single successful per-record accumulator
step. -/
theorem C9_error_bucket_invariant :
    (∀ (st : RunState) (data : Record) (line : String) (st' : RunState),
      st.datetime_errors.length + st.halttime_errors.length ≤ st.records →
      update_error_counter st data line = Except.ok st' →
      st'.datetime_errors.length + st'.halttime_errors.length ≤ st'.records) ∧
    (∀ (lines : List String) (st : RunState),
      process_lines initState lines = Except.ok st →
      st.datetime_errors.length + st.halttime_errors.length ≤ st.records) := by
  have hstep : ∀ (st : RunState) (data : Record) (line : String) (st' : RunState),
      st.datetime_errors.length + st.halttime_errors.length ≤ st.records →
      update_error_counter st data line = Except.ok st' →
      st'.datetime_errors.length + st'.halttime_errors.length ≤ st'.records := by
    intro st data line st' hinv h
    rcases update_error_counter_ok st data line st' h with
      h1 | h1 | h1 | ⟨y, mo, d, hh, mi, s, h1⟩ <;> subst h1 <;>
      simp [check_datetime_errors_eq, check_datetime_halttime_eq, check_datetime_records_eq] <;>
      omega
  refine ⟨hstep, ?_⟩
  have haux : ∀ (lines : List String) (st0 st : RunState),
      st0.datetime_errors.length + st0.halttime_errors.length ≤ st0.records →
      process_lines st0 lines = Except.ok st →
      st.datetime_errors.length + st.halttime_errors.length ≤ st.records := by
    intro lines
    induction lines with
    | nil =>
      intro st0 st h0 h
      simp only [process_lines] at h
      rw [Except.ok.injEq] at h
      subst h
      exact h0
    | cons l ls ih =>
      intro st0 st h0 h
      simp only [process_lines] at h
      cases hpl : process_line st0 l with
      | error e => rw [hpl] at h; exact absurd h (by simp)
      | ok st1 =>
        rw [hpl] at h
        exact ih st1 st (hstep st0 (parse_record l) l st1 h0 hpl) h
  intro lines st h
  exact haux lines initState st (by decide) h

/-- Claim C10: one successful accumulator step appends at most one entry in
total across the four logs; the error-bucket path (status not `ok`) and the
validation path (status `ok`) are mutually exclusive; and one
`check_datetime` call appends to at most one of `datetime_invalid` and
`datetime_out_sequence`. -/
theorem C10_at_most_one_log_per_record :
    (∀ (st : RunState) (data : Record) (line : String) (st' : RunState),
      update_error_counter st data line = Except.ok st' →
      st'.datetime_errors.length + st'.halttime_errors.length +
        st'.datetime_invalid.length + st'.datetime_out_sequence.length ≤
      st.datetime_errors.length + st.halttime_errors.length +
        st.datetime_invalid.length + st.datetime_out_sequence.length + 1) ∧
    (∀ data : Record,
      ¬ ((data.status ≠ "empty" ∧ data.status ≠ "ok" ∧ data.status ≠ "device unknow") ∧
         (data.status = "ok" ∧ data.word = some "00"))) ∧
    (∀ (st : RunState) (year month day hour minute seconds : Int),
      (check_datetime st year month day hour minute seconds).datetime_invalid =
        st.datetime_invalid ∨
      (check_datetime st year month day hour minute seconds).datetime_out_sequence =
        st.datetime_out_sequence) := by
  refine ⟨?_, fun data hd => hd.1.2.1 hd.2.1, fun st y mo d h mi s => check_datetime_one_of_two ..⟩
  intro st data line st' h
  rcases update_error_counter_ok st data line st' h with
    h1 | h1 | h1 | ⟨y, mo, d, hh, mi, s, h1⟩ <;> subst h1
  · simp
  · simp
    omega
  · simp
    omega
  · have hgrow := check_datetime_log_growth st y mo d hh mi s
    have he := check_datetime_errors_eq st y mo d hh mi s
    have hh2 := check_datetime_halttime_eq st y mo d hh mi s
    simp only [he, hh2]
    omega

/-- Python datetime `<` is asymmetric. -/
theorem dt_lt_asymm {a b : PyDatetime} (h : dt_lt a b = true) : dt_lt b a = false := by
  simp only [dt_lt] at h ⊢
  split_ifs at h ⊢ <;> simp_all <;> omega

/-- A valid timestamp that is not below `dt_last` is accepted silently: the
only change is `dt_last` moving to it. -/
theorem check_datetime_accepted (st : RunState) (year month day hour minute seconds : Int)
    (hvalid : datetime_ok (2000 + year) month day hour minute seconds = true)
    (hnlt : dt_lt (mk_dt (2000 + year) month day hour minute seconds) st.dt_last = false) :
    check_datetime st year month day hour minute seconds =
      { st with dt_last := mk_dt (2000 + year) month day hour minute seconds } := by
  simp [check_datetime, hvalid, hnlt]

/-- No calendar-valid timestamp of this program sorts below
`datetime.min`. -/
theorem dt_lt_datetime_min (t : DT6) (hv : comp_valid t = true) :
    dt_lt (comp_dt t) datetime_min = false := by
  obtain ⟨y, mo, d, h, mi, s⟩ := t
  simp only [comp_valid, datetime_ok, decide_eq_true_eq] at hv
  obtain ⟨h1, -, h3, -, h5, -, -, -, -, -, -, -⟩ := hv
  simp only [comp_dt, mk_dt, datetime_min, dt_lt]
  split_ifs <;> simp only [decide_eq_false_iff_not, Nat.not_lt] <;> omega

/-- Feeding valid, pairwise strictly increasing timestamps whose first
element is not below `dt_last` appends nothing to
`datetime_out_sequence`. -/
theorem run_checks_no_append (ts : List DT6) : ∀ st : RunState,
    (∀ t ∈ ts, comp_valid t = true) →
    List.Chain' (fun a b => dt_lt (comp_dt a) (comp_dt b) = true) ts →
    (∀ t, ts.head? = some t → dt_lt (comp_dt t) st.dt_last = false) →
    (run_checks st ts).datetime_out_sequence = st.datetime_out_sequence := by
  induction ts with
  | nil => intro st _ _ _; rfl
  | cons t ts ih =>
    intro st hv hc hh
    have hvt : comp_valid t = true := hv t (List.mem_cons_self t ts)
    have hht : dt_lt (comp_dt t) st.dt_last = false := hh t rfl
    have hacc : check_datetime st t.1 t.2.1 t.2.2.1 t.2.2.2.1 t.2.2.2.2.1 t.2.2.2.2.2 =
        { st with dt_last := comp_dt t } :=
      check_datetime_accepted st _ _ _ _ _ _ hvt hht
    have hstep : run_checks st (t :: ts) = run_checks { st with dt_last := comp_dt t } ts := by
      show run_checks (check_datetime st t.1 t.2.1 t.2.2.1 t.2.2.2.1 t.2.2.2.2.1 t.2.2.2.2.2) ts =
        run_checks { st with dt_last := comp_dt t } ts
      rw [hacc]
    rw [hstep]
    have hrel := (List.chain'_cons'.mp hc).1
    apply ih
    · intro u hu
      exact hv u (List.mem_cons_of_mem _ hu)
    · exact (List.chain'_cons'.mp hc).2
    · intro u hu
      exact dt_lt_asymm (hrel u (Option.mem_def.mpr hu))

/-- Claim C6: feeding any strictly increasing sequence of accepted,
calendar-valid timestamps through the tracker from the start state never
appends an entry to `datetime_out_sequence`. -/
theorem C6_strictly_increasing_never_flagged (ts : List DT6)
    (hvalid : ∀ t ∈ ts, comp_valid t = true)
    (hinc : List.Chain' (fun a b => dt_lt (comp_dt a) (comp_dt b) = true) ts) :
    (run_checks initState ts).datetime_out_sequence = [] := by
  have h := run_checks_no_append ts initState hvalid hinc ?_
  · exact h.trans rfl
  · intro t ht
    cases ts with
    | nil => simp at ht
    | cons u us =>
      have hut : u = t := by simpa using ht
      subst hut
      exact dt_lt_datetime_min u (hvalid u (List.mem_cons_self u us))

/-- Witness for claim C6: two increasing timestamps around
2021-06-01 16:29/16:30. -/
theorem C6_increasing_witness :
    (run_checks initState
      [((21 : Int), 6, 1, 16, 29, 6), ((21 : Int), 6, 1, 16, 30, 6)]).datetime_out_sequence = [] :=
  C6_strictly_increasing_never_flagged _ (by decide) (List.chain'_pair.mpr (by decide))

/-- The last-two-characters test holds exactly on character lists that end
in `n` then `p`. -/
theorem last_two_np_iff (l : List Char) :
    last_two_np l = true ↔ ∃ cs, l = cs ++ ['n', 'p'] := by
  constructor
  · intro h
    unfold last_two_np at h
    rcases h1 : l.getLast? with _ | c1
    · rw [h1] at h
      rcases l.dropLast.getLast? <;> simp at h
    · rcases h2 : l.dropLast.getLast? with _ | c2
      · rw [h1, h2] at h; simp at h
      · rw [h1, h2] at h
        simp only [Bool.and_eq_true, beq_iff_eq] at h
        obtain ⟨rfl, rfl⟩ := h
        obtain ⟨ys, rfl⟩ := List.getLast?_eq_some_iff.mp h1
        rw [List.dropLast_concat] at h2
        obtain ⟨zs, rfl⟩ := List.getLast?_eq_some_iff.mp h2
        exact ⟨zs, by simp⟩
  · rintro ⟨cs, rfl⟩
    unfold last_two_np
    rw [show cs ++ ['n', 'p'] = (cs ++ ['n']) ++ ['p'] by simp]
    rw [List.dropLast_concat, List.getLast?_concat, List.getLast?_concat]
    simp

/-- Claim C8: the Field Accessor is total: `get_val` returns the token at
the index when it exists and the sentinel `"."` when the index is out of
bounds, and `is_nack_stop` is true exactly when the token at the index
exists and its characters end in `n` then `p` (which forces length at
least two); a missing or too-short token gives `false`. -/
theorem C8_field_accessor_total (tokens : List String) (index : Nat) :
    (∀ h : index < tokens.length, get_val tokens index = tokens.get ⟨index, h⟩) ∧
    (tokens.length ≤ index → get_val tokens index = ".") ∧
    (is_nack_stop tokens index = true ↔
      ∃ (h : index < tokens.length) (cs : List Char),
        (tokens.get ⟨index, h⟩).data = cs ++ ['n', 'p']) := by
  refine ⟨?_, ?_, ?_⟩
  · intro h
    simp [get_val, List.getD_eq_getElem?_getD, List.getElem?_eq_getElem h]
  · intro h
    simp [get_val, List.getD_eq_getElem?_getD, List.getElem?_eq_none h]
  · unfold is_nack_stop
    rw [last_two_np_iff]
    by_cases h : index < tokens.length
    · have hg : get_val tokens index = tokens.get ⟨index, h⟩ := by
        simp [get_val, List.getD_eq_getElem?_getD, List.getElem?_eq_getElem h]
      rw [hg]
      constructor
      · rintro ⟨cs, hcs⟩
        exact ⟨h, cs, hcs⟩
      · rintro ⟨h', cs, hcs⟩
        exact ⟨cs, hcs⟩
    · have hg : get_val tokens index = "." := by
        simp [get_val, List.getD_eq_getElem?_getD, List.getElem?_eq_none (Nat.le_of_not_lt h)]
      rw [hg]
      constructor
      · rintro ⟨cs, hcs⟩
        have hlen := congrArg List.length hcs
        simp at hlen
      · rintro ⟨h', -, -⟩
        exact absurd h' h
